import Mathlib

set_option linter.unusedVariables false
set_option linter.unnecessarySimpa false

/- Shallow embedding of the layered temperature/humidity driver stack:
   the bit-banged two-wire bus engine (iic_abstract.c), the AHT21 protocol
   driver (aht21.c), the AHT21 backend adapter (temp_humi_adapter.c) and the
   generic sensor abstraction and scheduler (sensor.c).  Machine integers are
   modelled as Nat; the float-valued temperature/humidity cells are modelled
   exactly over the rationals. -/

/-! ## Bus engine (iic_abstract.c) -/

/-- Result vocabulary of the IIC bus engine (IIC_Result in iic_abstract.h). -/
inductive IIC_Result where
  | OK
  | ERR_NACK
  | ERR_TIMEOUT
  | ERR_BUS_BUSY
  | ERR_INVALID_PARAM
  deriving DecidableEq, Repr

/-- Handle of the bus engine (IIC_Handle in iic_abstract.h).  The hal_ops
    pointer is an external collaborator and is not part of the pure state. -/
structure IIC_Handle where
  speed_khz : Nat
  timeout_ms : Nat
  bus_busy : Bool
  deriving DecidableEq, Repr

/-- Embedding of iic_init's effect on the handle fields (iic_abstract.c,
    lines 19-34): zero the handle, then set the default 100 kHz speed and
    1000 ms timeout. -/
def iic_init : IIC_Handle :=
  { speed_khz := 100, timeout_ms := 1000, bus_busy := false }

/-- Embedding of iic_set_speed (iic_abstract.c, lines 39-44): stores the
    given speed with no validation. -/
def iic_set_speed (handle : IIC_Handle) (speed_khz : Nat) : IIC_Handle :=
  { handle with speed_khz := speed_khz }

/-- Embedding of the half-bit-period delay computation in iic_delay
    (iic_abstract.c, lines 8-14).  The C code computes
    500 / speed_khz by unguarded integer division; division by zero is
    undefined behaviour in C, modelled as none.  Otherwise the computed
    microsecond delay (delay > 0 ? delay : 1) is returned. -/
def iic_delay_us (handle : IIC_Handle) : Option Nat :=
  if handle.speed_khz = 0 then none
  else
    let delay := 500 / handle.speed_khz
    some (if delay > 0 then delay else 1)

/-- Wire-level event emitted by a bus transaction: a start condition, one
    transmitted byte (address or payload), or a stop condition. -/
inductive WireEv where
  | start
  | sendByte (b : Nat)
  | stop
  deriving DecidableEq, Repr

/-- Whether a wire event is a transmitted byte. -/
def WireEv.isSend : WireEv → Bool
  | .sendByte _ => true
  | _ => false

/-- Whether a wire event is a stop condition. -/
def WireEv.isStop : WireEv → Bool
  | .stop => true
  | _ => false

/-- Number of transmitted bytes (address byte included) in a trace. -/
def sendEvents (tr : List WireEv) : Nat := tr.countP WireEv.isSend

/-- Number of stop conditions in a trace. -/
def stopEvents (tr : List WireEv) : Nat := tr.countP WireEv.isStop

/-- Embedding of the payload loop of iic_write (iic_abstract.c, lines
    184-190).  acks k tells whether the k-th byte transmitted in this
    transaction is acknowledged by the device (per iic_write_byte, lines
    100-128, a byte is first transmitted, then its acknowledgment bit is
    sampled); k counts from the address byte, so the loop starts at k = 1.
    Returns the result together with the bytes actually transmitted. -/
def iic_write_loop (acks : Nat → Bool) (k : Nat) : List Nat → IIC_Result × List WireEv
  | [] => (IIC_Result.OK, [])
  | b :: rest =>
    if acks k then
      let r := iic_write_loop acks (k + 1) rest
      (r.1, WireEv.sendByte b :: r.2)
    else
      (IIC_Result.ERR_NACK, [WireEv.sendByte b])

/-- Embedding of iic_write (iic_abstract.c, lines 169-194): validate the
    arguments (null pointers are outside the pure model; a zero-length
    payload is rejected), issue start, transmit the address byte with the
    write-direction bit (addr << 1, truncated to eight bits by the uint8_t
    parameter of iic_write_byte), then each payload byte, aborting on the
    first NACK; every path past validation ends with one stop condition. -/
def iic_write (acks : Nat → Bool) (addr : Nat) (data : List Nat) :
    IIC_Result × List WireEv :=
  if data.isEmpty then (IIC_Result.ERR_INVALID_PARAM, [])
  else
    let hd := [WireEv.start, WireEv.sendByte ((addr <<< 1) % 256)]
    if acks 0 then
      let r := iic_write_loop acks 1 data
      (r.1, hd ++ r.2 ++ [WireEv.stop])
    else
      (IIC_Result.ERR_NACK, hd ++ [WireEv.stop])

/-! ## AHT21 protocol driver (aht21.c) -/

/-- Device address of the AHT21 (aht21.h). -/
def AHT21_ADDR : Nat := 0x38

/-- Initialization command byte (aht21.h). -/
def AHT21_CMD_INIT : Nat := 0xBE

/-- Trigger-measurement command byte (aht21.h). -/
def AHT21_CMD_TRIGGER : Nat := 0xAC

/-- Soft-reset command byte (aht21.h). -/
def AHT21_CMD_SOFT_RESET : Nat := 0xBA

/-- Busy bit of the status byte (aht21.h). -/
def AHT21_STATUS_BUSY : Nat := 0x80

/-- Calibration bit of the status byte (aht21.h). -/
def AHT21_STATUS_CALIBRATED : Nat := 0x08

/-- State vocabulary of the AHT21 driver (AHT21_State in aht21.h). -/
inductive AHT21_State where
  | IDLE
  | INIT
  | WAIT_MEASURE
  | READY
  | ERROR
  deriving DecidableEq, Repr

/-- Result vocabulary of the AHT21 driver (AHT21_Result in aht21.h). -/
inductive AHT21_Result where
  | OK
  | ERR_NOT_INIT
  | ERR_BUSY
  | ERR_TIMEOUT
  | ERR_IIC
  | ERR_INVALID_PARAM
  | ERR_CRC
  deriving DecidableEq, Repr

/-- Driver handle (AHT21_Handle in aht21.h).  The iic field is carried by
    the bus oracle below; the fixed 7-byte raw reply array is modelled as an
    index function (only indices 0..6 are ever written or read); temperature
    and humidity are the float cells, modelled exactly over the rationals. -/
structure AHT21_Handle where
  state : AHT21_State
  measure_ticks : Nat
  raw_data : Nat → Nat
  temperature : Rat
  humidity : Rat
  measure_interval : Nat

/-- Outcome oracle for the two high-level bus operations the driver uses:
    write addr data is the IIC_Result of iic_write for that transaction,
    and read addr len is the IIC_Result of iic_read together with the bytes
    delivered into the caller's buffer on success (on failure iic_read
    NACK-aborts at the address byte and stores nothing, iic_abstract.c,
    lines 199-224). -/
structure Bus where
  write : Nat → List Nat → IIC_Result
  read : Nat → Nat → IIC_Result × List Nat

/-- Record of the high-level bus transactions a driver operation performed. -/
inductive BusOp where
  | write (addr : Nat) (data : List Nat)
  | read (addr : Nat) (len : Nat)
  deriving DecidableEq, Repr

/-- Embedding of the static helper aht21_check_status (aht21.c, lines
    226-232): one 1-byte read of the status byte; a bus failure is reported
    as ERR_IIC.  Returns the driver result and the status byte read (the
    C status out-parameter is only consulted by callers on success). -/
def aht21_check_status (bus : Bus) : AHT21_Result × Nat :=
  let r := bus.read AHT21_ADDR 1
  if r.1 ≠ IIC_Result.OK then (AHT21_Result.ERR_IIC, 0)
  else (AHT21_Result.OK, r.2.headD 0)

/-- Embedding of the static helper aht21_parse_data (aht21.c, lines
    237-254): unpack the 20-bit raw humidity from bytes 1..3 and the 20-bit
    raw temperature from bytes 3..5 of the raw reply, and convert them with
    the fixed scale factors (humidity = raw * 100 / 2^20, temperature =
    raw * 200 / 2^20 - 50). -/
def aht21_parse_data (h : AHT21_Handle) : AHT21_Handle :=
  let humidity_raw : Nat :=
    (h.raw_data 1 <<< 12) ||| (h.raw_data 2 <<< 4) ||| (h.raw_data 3 >>> 4)
  let temperature_raw : Nat :=
    ((h.raw_data 3 &&& 0x0F) <<< 16) ||| (h.raw_data 4 <<< 8) ||| h.raw_data 5
  { h with
    humidity := (humidity_raw : Rat) * 100 / 1048576
    temperature := (temperature_raw : Rat) * 200 / 1048576 - 50 }

/-- Embedding of aht21_soft_reset (aht21.c, lines 59-75): write the
    soft-reset command byte; on bus failure return ERR_IIC leaving the
    handle unchanged; on success set the state to IDLE. -/
def aht21_soft_reset (bus : Bus) (h : AHT21_Handle) :
    AHT21_Result × AHT21_Handle × List BusOp :=
  let op := BusOp.write AHT21_ADDR [AHT21_CMD_SOFT_RESET]
  if bus.write AHT21_ADDR [AHT21_CMD_SOFT_RESET] ≠ IIC_Result.OK then
    (AHT21_Result.ERR_IIC, h, [op])
  else
    (AHT21_Result.OK, { h with state := AHT21_State.IDLE }, [op])

/-- Embedding of aht21_trigger_measure (aht21.c, lines 80-95): refuse with
    ERR_BUSY when already in WAIT_MEASURE (no bus activity); otherwise
    write the trigger command with its two parameter bytes; on bus failure
    return ERR_IIC leaving the handle unchanged; on success enter
    WAIT_MEASURE and reset the elapsed-tick counter. -/
def aht21_trigger_measure (bus : Bus) (h : AHT21_Handle) :
    AHT21_Result × AHT21_Handle × List BusOp :=
  if h.state = AHT21_State.WAIT_MEASURE then (AHT21_Result.ERR_BUSY, h, [])
  else
    let cmd := [AHT21_CMD_TRIGGER, 0x33, 0x00]
    let op := BusOp.write AHT21_ADDR cmd
    if bus.write AHT21_ADDR cmd ≠ IIC_Result.OK then
      (AHT21_Result.ERR_IIC, h, [op])
    else
      (AHT21_Result.OK,
       { h with state := AHT21_State.WAIT_MEASURE, measure_ticks := 0 }, [op])

/-- Embedding of aht21_read_data (aht21.c, lines 100-124): read the status
    byte (ERR_IIC on bus failure); return ERR_BUSY if the busy bit is set;
    otherwise read the 7-byte reply into raw_data (ERR_IIC on bus failure,
    in which case iic_read has stored nothing), parse it, and enter READY. -/
def aht21_read_data (bus : Bus) (h : AHT21_Handle) :
    AHT21_Result × AHT21_Handle × List BusOp :=
  let cs := aht21_check_status bus
  let ops0 := [BusOp.read AHT21_ADDR 1]
  if cs.1 ≠ AHT21_Result.OK then (AHT21_Result.ERR_IIC, h, ops0)
  else if cs.2 &&& AHT21_STATUS_BUSY ≠ 0 then (AHT21_Result.ERR_BUSY, h, ops0)
  else
    let rd := bus.read AHT21_ADDR 7
    let ops1 := ops0 ++ [BusOp.read AHT21_ADDR 7]
    if rd.1 ≠ IIC_Result.OK then (AHT21_Result.ERR_IIC, h, ops1)
    else
      let h1 := { h with raw_data := fun i => rd.2.getD i 0 }
      let h2 := aht21_parse_data h1
      (AHT21_Result.OK, { h2 with state := AHT21_State.READY }, ops1)

/-- Embedding of the cooperative step aht21_ticks (aht21.c, lines 153-191):
    IDLE auto-triggers; WAIT_MEASURE increments the elapsed counter (a
    uint32_t, hence mod 2^32) and once it reaches 80/5 attempts a read,
    entering READY on success; READY increments the counter and reverts to
    IDLE once measure_interval/5 is reached; ERROR attempts a soft reset;
    the default branch (reached in the INIT state) forces IDLE. -/
def aht21_ticks (bus : Bus) (h : AHT21_Handle) : AHT21_Handle × List BusOp :=
  match h.state with
  | AHT21_State.IDLE =>
    let r := aht21_trigger_measure bus h
    (r.2.1, r.2.2)
  | AHT21_State.WAIT_MEASURE =>
    let h1 := { h with measure_ticks := (h.measure_ticks + 1) % 4294967296 }
    if h1.measure_ticks ≥ 80 / 5 then
      let r := aht21_read_data bus h1
      if r.1 = AHT21_Result.OK then
        ({ r.2.1 with state := AHT21_State.READY }, r.2.2)
      else (r.2.1, r.2.2)
    else (h1, [])
  | AHT21_State.READY =>
    let h1 := { h with measure_ticks := (h.measure_ticks + 1) % 4294967296 }
    if h1.measure_ticks ≥ h.measure_interval / 5 then
      ({ h1 with state := AHT21_State.IDLE, measure_ticks := 0 }, [])
    else (h1, [])
  | AHT21_State.ERROR =>
    let r := aht21_soft_reset bus h
    (r.2.1, r.2.2)
  | AHT21_State.INIT => ({ h with state := AHT21_State.IDLE }, [])

/-! ## Generic sensor vocabulary (sensor_temp_humi.h) -/

/-- Sensor backend tag (SensorType in sensor_temp_humi.h). -/
inductive SensorType where
  | UNKNOWN
  | AHT21
  | SHT30
  | DHT11
  | DHT22
  deriving DecidableEq, Repr

/-- Generic sensor state vocabulary (SensorState in sensor_temp_humi.h). -/
inductive SensorState where
  | IDLE
  | MEASURING
  | READY
  | ERROR
  deriving DecidableEq, Repr

/-- Generic sensor result vocabulary (SensorResult in sensor_temp_humi.h). -/
inductive SensorResult where
  | OK
  | ERR_INIT
  | ERR_BUSY
  | ERR_TIMEOUT
  | ERR_COMM
  | ERR_INVALID_PARAM
  | ERR_NOT_READY
  deriving DecidableEq, Repr

/-! ## AHT21 backend adapter (temp_humi_adapter.c) -/

/-- Translation applied by aht21_adapter_trigger to the driver result
    (temp_humi_adapter.c, lines 22-30): OK maps to OK, ERR_BUSY maps to
    ERR_BUSY, everything else maps to ERR_COMM. -/
def aht21_adapter_trigger_map (r : AHT21_Result) : SensorResult :=
  if r = AHT21_Result.OK then SensorResult.OK
  else if r = AHT21_Result.ERR_BUSY then SensorResult.ERR_BUSY
  else SensorResult.ERR_COMM

/-- Translation applied by aht21_adapter_read to the driver result
    (temp_humi_adapter.c, lines 32-40); identical to the trigger
    translation. -/
def aht21_adapter_read_map (r : AHT21_Result) : SensorResult :=
  if r = AHT21_Result.OK then SensorResult.OK
  else if r = AHT21_Result.ERR_BUSY then SensorResult.ERR_BUSY
  else SensorResult.ERR_COMM

/-- Translation applied by aht21_adapter_reset to the driver result
    (temp_humi_adapter.c, lines 16-20): OK maps to OK, everything else to
    ERR_COMM. -/
def aht21_adapter_reset_map (r : AHT21_Result) : SensorResult :=
  if r = AHT21_Result.OK then SensorResult.OK else SensorResult.ERR_COMM

/-- Translation applied by aht21_adapter_get_temp and aht21_adapter_get_humi
    to the driver result (temp_humi_adapter.c, lines 42-52): OK maps to OK,
    everything else to ERR_NOT_READY. -/
def aht21_adapter_get_map (r : AHT21_Result) : SensorResult :=
  if r = AHT21_Result.OK then SensorResult.OK else SensorResult.ERR_NOT_READY

/-- Embedding of aht21_adapter_get_state (temp_humi_adapter.c, lines 54-65):
    the switch maps IDLE, WAIT_MEASURE, READY and ERROR to their generic
    counterparts and the default branch (the INIT state) to IDLE. -/
def aht21_adapter_get_state (s : AHT21_State) : SensorState :=
  match s with
  | AHT21_State.IDLE => SensorState.IDLE
  | AHT21_State.WAIT_MEASURE => SensorState.MEASURING
  | AHT21_State.READY => SensorState.READY
  | AHT21_State.ERROR => SensorState.ERROR
  | AHT21_State.INIT => SensorState.IDLE

/-- Embedding of aht21_adapter_trigger itself (temp_humi_adapter.c, lines
    22-30): call the driver and translate the result. -/
def aht21_adapter_trigger (bus : Bus) (h : AHT21_Handle) :
    SensorResult × AHT21_Handle :=
  let r := aht21_trigger_measure bus h
  (aht21_adapter_trigger_map r.1, r.2.1)

/-- Embedding of aht21_adapter_read itself (temp_humi_adapter.c, lines
    32-40): call the driver and translate the result. -/
def aht21_adapter_read (bus : Bus) (h : AHT21_Handle) :
    SensorResult × AHT21_Handle :=
  let r := aht21_read_data bus h
  (aht21_adapter_read_map r.1, r.2.1)

/-- The driver result kinds the adapter's result translation distinguishes
    explicitly (the recognized kinds): success, busy, and the bus-failure
    kind that lands in the default arm for trigger/read. -/
def recognizedResults : List AHT21_Result :=
  [AHT21_Result.OK, AHT21_Result.ERR_BUSY, AHT21_Result.ERR_IIC]

/-- The driver states the adapter's state translation recognizes
    explicitly (every post-init operational state). -/
def recognizedStates : List AHT21_State :=
  [AHT21_State.IDLE, AHT21_State.WAIT_MEASURE, AHT21_State.READY,
   AHT21_State.ERROR]

/-- All driver result values. -/
def allAHT21Results : List AHT21_Result :=
  [AHT21_Result.OK, AHT21_Result.ERR_NOT_INIT, AHT21_Result.ERR_BUSY,
   AHT21_Result.ERR_TIMEOUT, AHT21_Result.ERR_IIC,
   AHT21_Result.ERR_INVALID_PARAM, AHT21_Result.ERR_CRC]

/-- All driver state values. -/
def allAHT21States : List AHT21_State :=
  [AHT21_State.IDLE, AHT21_State.INIT, AHT21_State.WAIT_MEASURE,
   AHT21_State.READY, AHT21_State.ERROR]

/-! ## Sensor abstraction and scheduler (sensor.c) -/

/-- Behavioural model of an operations table (SensorOps in
    sensor_temp_humi.h): seven capability slots, each either absent (a null
    function pointer) or present with the outcome its backend call would
    report.  get_temp and get_humi deliver a result and a value; get_state
    delivers a generic state. -/
structure SensorOps where
  init : Option SensorResult
  reset : Option SensorResult
  trigger : Option SensorResult
  read : Option SensorResult
  get_temp : Option (SensorResult × Rat)
  get_humi : Option (SensorResult × Rat)
  get_state : Option SensorState

/-- Generic sensor instance (TempHumiSensor in sensor_temp_humi.h) minus
    the intrusive registry link, which the registry model below carries
    separately. -/
structure TempHumiSensor where
  type : SensorType
  ops : SensorOps
  temperature : Rat
  humidity : Rat
  state : SensorState

/-- Embedding of sensor_init (sensor.c, lines 16-33): null handle, ops or
    driver handle is rejected before any effect (outside the pure model);
    otherwise the instance is zeroed, the tag, ops table and driver handle
    are stored, the cached state is set to IDLE, and the init slot is
    invoked when present, its result discarded.  The function returns void;
    the model returns the new instance together with the list of backend
    results produced (and dropped) by the call. -/
def sensor_init (t : SensorType) (ops : SensorOps) :
    TempHumiSensor × List SensorResult :=
  let s : TempHumiSensor :=
    { type := t, ops := ops, temperature := 0, humidity := 0,
      state := SensorState.IDLE }
  match ops.init with
  | some r => (s, [r])
  | none => (s, [])

/-- Embedding of sensor_start (sensor.c, lines 159-172) acting on the
    registry, modelled as the list of registered instance identities,
    most recently registered first.  A null instance is rejected with -2;
    an instance already present (identity scan of the list) is rejected
    with -1 leaving the registry unchanged; otherwise the instance is
    inserted at the front and 0 is returned. -/
def sensor_start {α : Type} [DecidableEq α] (reg : List α) :
    Option α → Int × List α
  | none => (-2, reg)
  | some h => if h ∈ reg then (-1, reg) else (0, h :: reg)

/-- Embedding of the removal loop of sensor_stop (sensor.c, lines 177-192):
    remove the first identity match, if any, and return. -/
def sensor_stop_list {α : Type} [DecidableEq α] (h : α) : List α → List α
  | [] => []
  | e :: rest => if e = h then rest else e :: sensor_stop_list h rest

/-- Embedding of sensor_stop (sensor.c, lines 177-192): a null instance is
    a no-op; otherwise remove by identity if present. -/
def sensor_stop {α : Type} [DecidableEq α] (reg : List α) :
    Option α → List α
  | none => reg
  | some h => sensor_stop_list h reg

/-- The single action sensor_handler drives for an instance. -/
inductive SensorAction where
  | trigger
  | read
  | noAction
  | reset
  deriving DecidableEq, Repr

/-- Embedding of the switch in sensor_handler (sensor.c, lines 197-225):
    IDLE auto-triggers, MEASURING attempts a read, READY does nothing
    (timing logic reserved), ERROR attempts a reset. -/
def sensor_handler_action : SensorState → SensorAction
  | SensorState.IDLE => SensorAction.trigger
  | SensorState.MEASURING => SensorAction.read
  | SensorState.READY => SensorAction.noAction
  | SensorState.ERROR => SensorAction.reset

/-- Embedding of sensor_ticks (sensor.c, lines 230-236): one pass over the
    registry, front (most recently registered) first, invoking
    sensor_handler once per instance.  getState h models the
    sensor_get_state call for instance h (delegation to the backend's
    get_state slot, ERROR when the slot is null, sensor.c lines 120-124).
    The trace records, in order, each handler invocation and the single
    action it drives. -/
def sensor_ticks {α : Type} (getState : α → SensorState) :
    List α → List (α × SensorAction)
  | [] => []
  | t :: rest =>
    (t, sensor_handler_action (getState t)) :: sensor_ticks getState rest

/-- Witness bus for C1: every transfer succeeds, the status byte is 0x18
    (calibrated, not busy), and the 7-byte reply is all 0x55. -/
def busC1 : Bus :=
  { write := fun _ _ => IIC_Result.OK
    read := fun _ len =>
      if len = 1 then (IIC_Result.OK, [0x18])
      else (IIC_Result.OK, [0x55, 0x55, 0x55, 0x55, 0x55, 0x55, 0x55]) }

/-- Concrete idle driver handle used by witnesses. -/
def handle0 : AHT21_Handle :=
  { state := AHT21_State.IDLE, measure_ticks := 0, raw_data := fun _ => 0,
    temperature := 0, humidity := 0, measure_interval := 100 }

/-- Acknowledgment pattern for the C4 witness: the address byte is ACKed
    and every payload byte is NACKed. -/
def ackAddrOnly : Nat → Bool := fun k => decide (k = 0)

/-- Bus whose every transaction has the given fixed outcome; reads deliver
    all-zero bytes. -/
def busConst (r : IIC_Result) : Bus :=
  { write := fun _ _ => r
    read := fun _ len => (r, List.replicate len 0) }

/-- All IIC_Result values. -/
def allIICResults : List IIC_Result :=
  [IIC_Result.OK, IIC_Result.ERR_NACK, IIC_Result.ERR_TIMEOUT,
   IIC_Result.ERR_BUS_BUSY, IIC_Result.ERR_INVALID_PARAM]

/-- Concrete driver handle stuck in the ERROR state. -/
def handleErr : AHT21_Handle :=
  { state := AHT21_State.ERROR, measure_ticks := 0, raw_data := fun _ => 0,
    temperature := 0, humidity := 0, measure_interval := 100 }

/-- Concrete operations table whose backend init reports a communication
    failure. -/
def opsW : SensorOps :=
  { init := some SensorResult.ERR_COMM, reset := some SensorResult.OK,
    trigger := some SensorResult.OK, read := some SensorResult.OK,
    get_temp := some (SensorResult.OK, 0),
    get_humi := some (SensorResult.OK, 0),
    get_state := some SensorState.IDLE }

/-- Concrete backend state assignment used by the C8 witness. -/
def getStateW : Nat → SensorState := fun n =>
  if n = 1 then SensorState.IDLE else SensorState.ERROR

/-! ## Helper lemmas -/

/-- Disjoint bitwise or is addition: when a is a multiple of 2^k and y is
    below 2^k the two bit patterns do not overlap. -/
theorem lor_eq_add_of_mod_eq_zero {a y k : Nat} (ha : a % 2 ^ k = 0)
    (hy : y < 2 ^ k) : a ||| y = a + y := by
  obtain ⟨c, hc⟩ := Nat.dvd_of_mod_eq_zero ha
  subst hc
  exact (Nat.mul_add_lt_is_or hy c).symm

/-- Positional reading of the packed 20-bit humidity field: for byte values
    the shift-and-or decode of aht21_parse_data is plain positional
    arithmetic on bytes 1..3. -/
theorem humidity_raw_positional {b1 b2 b3 : Nat} (h2 : b2 < 256)
    (h3 : b3 < 256) :
    (b1 <<< 12) ||| (b2 <<< 4) ||| (b3 >>> 4) =
      b1 * 2 ^ 12 + b2 * 2 ^ 4 + b3 / 2 ^ 4 := by
  have e1 : b1 <<< 12 = b1 * 2 ^ 12 := Nat.shiftLeft_eq _ _
  have e2 : b2 <<< 4 = b2 * 2 ^ 4 := Nat.shiftLeft_eq _ _
  have e3 : b3 >>> 4 = b3 / 2 ^ 4 := Nat.shiftRight_eq_div_pow _ _
  have hinner : b1 * 2 ^ 12 ||| b2 * 2 ^ 4 = b1 * 2 ^ 12 + b2 * 2 ^ 4 :=
    @lor_eq_add_of_mod_eq_zero (b1 * 2 ^ 12) (b2 * 2 ^ 4) 12
      (Nat.mul_mod_left _ _) (by norm_num; omega)
  have houter :
      (b1 * 2 ^ 12 + b2 * 2 ^ 4) ||| b3 / 2 ^ 4 =
        b1 * 2 ^ 12 + b2 * 2 ^ 4 + b3 / 2 ^ 4 :=
    @lor_eq_add_of_mod_eq_zero (b1 * 2 ^ 12 + b2 * 2 ^ 4) (b3 / 2 ^ 4) 4
      (by norm_num; omega) (by norm_num; omega)
  rw [e1, e2, e3, hinner, houter]

/-- Positional reading of the packed 20-bit temperature field: for byte
    values the mask-shift-and-or decode of aht21_parse_data is plain
    positional arithmetic on bytes 3..5. -/
theorem temperature_raw_positional {b3 b4 b5 : Nat} (h4 : b4 < 256)
    (h5 : b5 < 256) :
    ((b3 &&& 0x0F) <<< 16) ||| (b4 <<< 8) ||| b5 =
      b3 % 2 ^ 4 * 2 ^ 16 + b4 * 2 ^ 8 + b5 := by
  have hmask : b3 &&& 0x0F = b3 % 2 ^ 4 := by
    have := Nat.and_pow_two_sub_one_eq_mod b3 4
    norm_num at this ⊢
    exact this
  have e1 : (b3 % 2 ^ 4) <<< 16 = b3 % 2 ^ 4 * 2 ^ 16 := Nat.shiftLeft_eq _ _
  have e2 : b4 <<< 8 = b4 * 2 ^ 8 := Nat.shiftLeft_eq _ _
  have hinner :
      b3 % 2 ^ 4 * 2 ^ 16 ||| b4 * 2 ^ 8 =
        b3 % 2 ^ 4 * 2 ^ 16 + b4 * 2 ^ 8 :=
    @lor_eq_add_of_mod_eq_zero (b3 % 2 ^ 4 * 2 ^ 16) (b4 * 2 ^ 8) 16
      (Nat.mul_mod_left _ _) (by norm_num; omega)
  have houter :
      (b3 % 2 ^ 4 * 2 ^ 16 + b4 * 2 ^ 8) ||| b5 =
        b3 % 2 ^ 4 * 2 ^ 16 + b4 * 2 ^ 8 + b5 :=
    @lor_eq_add_of_mod_eq_zero (b3 % 2 ^ 4 * 2 ^ 16 + b4 * 2 ^ 8) b5 8
      (by norm_num; omega) (by norm_num; omega)
  rw [hmask, e1, e2, hinner, houter]

/-! ## Claim C1 -/

/-- Claim C1: for every 7-byte raw reply, aht21_read_data (on a non-busy
    status and successful bus reads) returns OK, decodes the raw humidity
    as the top 20 bits packed in bytes 1..3 and the raw temperature as the
    bottom 20 bits packed in bytes 3..5 (stated positionally, which for
    byte values coincides with raw_data[1]<<12 | raw_data[2]<<4 |
    raw_data[3]>>4 resp. (raw_data[3]&0x0F)<<16 | raw_data[4]<<8 |
    raw_data[5]), stores humidity = raw * 100 / 2^20 and temperature =
    raw * 200 / 2^20 - 50, and sets the driver state to READY. -/
theorem C1_read_data_decode (bus : Bus) (h : AHT21_Handle) (s : Nat)
    (b : Nat → Nat)
    (hstat : bus.read AHT21_ADDR 1 = (IIC_Result.OK, [s]))
    (hbusy : s &&& AHT21_STATUS_BUSY = 0)
    (hdata : bus.read AHT21_ADDR 7 =
      (IIC_Result.OK, [b 0, b 1, b 2, b 3, b 4, b 5, b 6]))
    (hb : ∀ i, i < 7 → b i < 256) :
    (aht21_read_data bus h).1 = AHT21_Result.OK ∧
    (aht21_read_data bus h).2.1.state = AHT21_State.READY ∧
    (aht21_read_data bus h).2.1.humidity =
      ((b 1 * 2 ^ 12 + b 2 * 2 ^ 4 + b 3 / 2 ^ 4 : Nat) : Rat) * 100 / 2 ^ 20 ∧
    (aht21_read_data bus h).2.1.temperature =
      ((b 3 % 2 ^ 4 * 2 ^ 16 + b 4 * 2 ^ 8 + b 5 : Nat) : Rat) * 200 / 2 ^ 20
        - 50 := by
  have hhum := @humidity_raw_positional (b 1) (b 2) (b 3) (hb 2 (by omega))
    (hb 3 (by omega))
  have htem := @temperature_raw_positional (b 3) (b 4) (b 5) (hb 4 (by omega))
    (hb 5 (by omega))
  have hbusy' : s &&& 128 = 0 := hbusy
  simp only [aht21_read_data, aht21_check_status, hstat, hdata,
    aht21_parse_data, hbusy]
  norm_num [AHT21_STATUS_BUSY, hbusy, List.getD, hhum, htem, hbusy']

/-- Witness for C1: the theorem applied at the concrete bus busC1 and
    handle handle0. -/
theorem C1_read_data_decode_witness :
    (aht21_read_data busC1 handle0).1 = AHT21_Result.OK ∧
    (aht21_read_data busC1 handle0).2.1.state = AHT21_State.READY ∧
    (aht21_read_data busC1 handle0).2.1.humidity =
      ((0x55 * 2 ^ 12 + 0x55 * 2 ^ 4 + 0x55 / 2 ^ 4 : Nat) : Rat) * 100
        / 2 ^ 20 ∧
    (aht21_read_data busC1 handle0).2.1.temperature =
      ((0x55 % 2 ^ 4 * 2 ^ 16 + 0x55 * 2 ^ 8 + 0x55 : Nat) : Rat) * 200
        / 2 ^ 20 - 50 :=
  C1_read_data_decode busC1 handle0 0x18 (fun _ => 0x55) (by decide)
    (by decide) (by decide) (fun i _ => by norm_num)

/-! ## Claim C4 -/

/-- The payload loop transmits every byte when each one is acknowledged. -/
theorem iic_write_loop_all_acked (acks : Nat → Bool) :
    ∀ (data : List Nat) (k : Nat),
      (∀ j, j < data.length → acks (k + j) = true) →
      iic_write_loop acks k data =
        (IIC_Result.OK, data.map WireEv.sendByte) := by
  intro data
  induction data with
  | nil => intro k _; rfl
  | cons b rest ih =>
    intro k hacks
    have h0 : acks k = true := by simpa using hacks 0 (by simp)
    have hrest : ∀ j, j < rest.length → acks (k + 1 + j) = true := by
      intro j hj
      have := hacks (j + 1) (by simpa using Nat.succ_lt_succ hj)
      rwa [show k + (j + 1) = k + 1 + j by omega] at this
    simp [iic_write_loop, h0, ih (k + 1) hrest]

/-- The payload loop aborts at the first unacknowledged byte, having
    transmitted exactly the bytes up to and including that one. -/
theorem iic_write_loop_first_nack (acks : Nat → Bool) :
    ∀ (data : List Nat) (k i : Nat), i < data.length →
      (∀ j, j < i → acks (k + j) = true) → acks (k + i) = false →
      iic_write_loop acks k data =
        (IIC_Result.ERR_NACK, (data.take (i + 1)).map WireEv.sendByte) := by
  intro data
  induction data with
  | nil => intro k i hi _ _; simp at hi
  | cons b rest ih =>
    intro k i hi hpre hnack
    cases i with
    | zero =>
      have h0 : acks k = false := by simpa using hnack
      simp [iic_write_loop, h0]
    | succ n =>
      have h0 : acks k = true := by simpa using hpre 0 (Nat.succ_pos _)
      have hpre' : ∀ j, j < n → acks (k + 1 + j) = true := by
        intro j hj
        have := hpre (j + 1) (by omega)
        rwa [show k + (j + 1) = k + 1 + j by omega] at this
      have hnack' : acks (k + 1 + n) = false := by
        rwa [show k + (n + 1) = k + 1 + n by omega] at hnack
      simp [iic_write_loop, h0,
        ih (k + 1) n (Nat.lt_of_succ_lt_succ hi) hpre' hnack']

/-- Transmitted-byte count of a pure byte trace. -/
theorem sendEvents_map (l : List Nat) :
    sendEvents (l.map WireEv.sendByte) = l.length := by
  induction l with
  | nil => rfl
  | cons b rest ih =>
    simp [sendEvents, List.countP_cons, WireEv.isSend] at ih ⊢

/-- A pure byte trace contains no stop condition. -/
theorem stopEvents_map (l : List Nat) :
    stopEvents (l.map WireEv.sendByte) = 0 := by
  induction l with
  | nil => rfl
  | cons b rest ih =>
    simp [stopEvents, List.countP_cons, WireEv.isStop] at ih ⊢

/-- The payload loop emits only transmitted bytes, never a stop
    condition. -/
theorem iic_write_loop_no_stop (acks : Nat → Bool) :
    ∀ (data : List Nat) (k : Nat),
      stopEvents (iic_write_loop acks k data).2 = 0 := by
  intro data
  induction data with
  | nil => intro k; rfl
  | cons b rest ih =>
    intro k
    cases hk : acks k with
    | true =>
      have := ih (k + 1)
      simp [iic_write_loop, hk, stopEvents, List.countP_cons,
        WireEv.isStop] at this ⊢
      exact this
    | false =>
      simp [iic_write_loop, hk, stopEvents, List.countP_cons, WireEv.isStop]

/-- Claim C4: for every valid bus write (non-empty payload; null pointers
    are outside the pure model), the trace contains exactly one stop
    condition, issued last; a NACK on the address byte yields the NACK
    error with no payload byte transmitted (only the address byte, hence
    one transmitted byte in total); a first NACK on transmitted byte k
    yields the NACK error with no byte transmitted beyond it (k + 1
    transmitted bytes in total, the address byte included); and a fully
    acknowledged transaction succeeds having transmitted the address byte
    and the whole payload. -/
theorem C4_write_nack_stop (acks : Nat → Bool) (addr : Nat)
    (data : List Nat) (hne : data ≠ []) :
    stopEvents (iic_write acks addr data).2 = 1 ∧
    (iic_write acks addr data).2.getLast? = some WireEv.stop ∧
    (acks 0 = false →
      (iic_write acks addr data).1 = IIC_Result.ERR_NACK ∧
      sendEvents (iic_write acks addr data).2 = 1) ∧
    (∀ k, k ≤ data.length → (∀ j, j < k → acks j = true) → acks k = false →
      (iic_write acks addr data).1 = IIC_Result.ERR_NACK ∧
      sendEvents (iic_write acks addr data).2 = k + 1) ∧
    ((∀ j, j ≤ data.length → acks j = true) →
      (iic_write acks addr data).1 = IIC_Result.OK ∧
      sendEvents (iic_write acks addr data).2 = data.length + 1) := by
  have hne' : data.isEmpty = false := by
    cases data with
    | nil => exact absurd rfl hne
    | cons a l => rfl
  cases h0 : acks 0 with
  | true =>
    refine ⟨?_, ?_, ?_, ?_, ?_⟩
    · have hns := iic_write_loop_no_stop acks data 1
      simp [iic_write, hne', h0, stopEvents, List.countP_append,
        List.countP_cons, WireEv.isStop] at hns ⊢
      exact hns
    · simp only [iic_write, hne', Bool.false_eq_true, if_false, h0, if_true]
      rw [List.getLast?_concat]
    · intro habs
      exact absurd habs (by decide)
    · intro k hk hpre hnack
      cases k with
      | zero => exact absurd (h0.symm.trans hnack) (by decide)
      | succ n =>
        have hpre' : ∀ j, j < n → acks (1 + j) = true := by
          intro j hj
          have := hpre (j + 1) (by omega)
          rwa [show j + 1 = 1 + j by omega] at this
        have hnack' : acks (1 + n) = false := by
          rwa [show n + 1 = 1 + n by omega] at hnack
        have hloop := iic_write_loop_first_nack acks data 1 n (by omega)
          hpre' hnack'
        have hlen : (data.take (n + 1)).length = n + 1 := by
          rw [List.length_take]
          omega
        constructor
        · simp [iic_write, hne', h0, hloop]
        · have hsend := sendEvents_map (data.take (n + 1))
          simp [iic_write, hne', h0, hloop, sendEvents, List.countP_append,
            List.countP_cons, WireEv.isSend, hlen] at hsend ⊢
          omega
    · intro hall
      have hall' : ∀ j, j < data.length → acks (1 + j) = true := by
        intro j hj
        exact hall (1 + j) (by omega)
      have hloop := iic_write_loop_all_acked acks data 1 hall'
      constructor
      · simp [iic_write, hne', h0, hloop]
      · have hsend := sendEvents_map data
        simp [iic_write, hne', h0, hloop, sendEvents, List.countP_append,
          List.countP_cons, WireEv.isSend] at hsend ⊢
  | false =>
    refine ⟨?_, ?_, ?_, ?_, ?_⟩
    · simp [iic_write, hne', h0, stopEvents, List.countP_cons, WireEv.isStop]
    · simp [iic_write, hne', h0]
    · intro _
      simp [iic_write, hne', h0, sendEvents, List.countP_cons, WireEv.isSend]
    · intro k hk hpre hnack
      cases k with
      | zero =>
        simp [iic_write, hne', h0, sendEvents, List.countP_cons,
          WireEv.isSend]
      | succ n =>
        have h1 := hpre 0 (by omega)
        exact absurd (h0.symm.trans h1) (by decide)
    · intro hall
      have h1 := hall 0 (by omega)
      exact absurd (h0.symm.trans h1) (by decide)

/-- Witness for C4: the theorem applied to the trigger-command write with
    the address byte ACKed and the first payload byte NACKed. -/
theorem C4_write_nack_stop_witness :
    stopEvents (iic_write ackAddrOnly 0x38 [0xAC, 0x33]).2 = 1 ∧
    (iic_write ackAddrOnly 0x38 [0xAC, 0x33]).1 = IIC_Result.ERR_NACK ∧
    sendEvents (iic_write ackAddrOnly 0x38 [0xAC, 0x33]).2 = 2 := by
  refine ⟨(C4_write_nack_stop ackAddrOnly 0x38 [0xAC, 0x33] (by decide)).1,
    ?_, ?_⟩
  · exact ((C4_write_nack_stop ackAddrOnly 0x38 [0xAC, 0x33]
      (by decide)).2.2.2.1 1 (by decide)
      (fun j hj => by
        have hj0 : j = 0 := by omega
        subst hj0
        decide)
      (by decide)).1
  · exact ((C4_write_nack_stop ackAddrOnly 0x38 [0xAC, 0x33]
      (by decide)).2.2.2.1 1 (by decide)
      (fun j hj => by
        have hj0 : j = 0 := by omega
        subst hj0
        decide)
      (by decide)).2

/-! ## Claim C9 -/

/-- Claim C9: the half-bit-period delay computed by the bus primitives is
    max(500 / speed_khz, 1) microseconds by unguarded integer division on
    the handle's speed setting and is well-defined only when speed_khz is
    positive; iic_set_speed stores any value, zero included, with no
    validation, after which the division in iic_delay is undefined; the
    iic_init default of 100 kHz satisfies the precondition (5 us delay). -/
theorem C9_delay_division (handle : IIC_Handle) (speed : Nat) :
    (0 < handle.speed_khz →
      iic_delay_us handle = some (max (500 / handle.speed_khz) 1)) ∧
    (handle.speed_khz = 0 → iic_delay_us handle = none) ∧
    (iic_set_speed handle speed).speed_khz = speed ∧
    iic_delay_us (iic_set_speed handle 0) = none ∧
    iic_init.speed_khz = 100 ∧
    iic_delay_us iic_init = some 5 := by
  refine ⟨?_, ?_, rfl, rfl, rfl, rfl⟩
  · intro hpos
    have hne : handle.speed_khz ≠ 0 := by omega
    simp only [iic_delay_us, hne, if_false, Option.some.injEq]
    split <;> omega
  · intro h0
    simp [iic_delay_us, h0]

/-- Witness for C9: the theorem applied at the freshly initialized handle
    and the degenerate zero speed. -/
theorem C9_delay_division_witness :
    iic_delay_us iic_init = some (max (500 / iic_init.speed_khz) 1) ∧
    iic_delay_us (iic_set_speed iic_init 0) = none :=
  ⟨(C9_delay_division iic_init 0).1 (by decide),
   (C9_delay_division iic_init 0).2.2.2.1⟩

/-! ## Claim C5 -/

/-- Claim C5: when the status read succeeds with the busy bit (bit 7) set,
    aht21_read_data returns ERR_BUSY and leaves the cached temperature,
    cached humidity, raw reply buffer and driver state unchanged (the poll
    is idempotent: the handle is returned exactly as it was). -/
theorem C5_read_busy_unchanged (bus : Bus) (h : AHT21_Handle) (s : Nat)
    (hstat : bus.read AHT21_ADDR 1 = (IIC_Result.OK, [s]))
    (hbusy : s &&& AHT21_STATUS_BUSY ≠ 0) :
    (aht21_read_data bus h).1 = AHT21_Result.ERR_BUSY ∧
    (aht21_read_data bus h).2.1.temperature = h.temperature ∧
    (aht21_read_data bus h).2.1.humidity = h.humidity ∧
    (aht21_read_data bus h).2.1.raw_data = h.raw_data ∧
    (aht21_read_data bus h).2.1.state = h.state := by
  have heq : aht21_read_data bus h =
      (AHT21_Result.ERR_BUSY, h, [BusOp.read AHT21_ADDR 1]) := by
    simp [aht21_read_data, aht21_check_status, hstat, hbusy]
  rw [heq]
  exact ⟨rfl, rfl, rfl, rfl, rfl⟩

/-- Busy-status bus for the C5 witness: the status byte 0x98 has the busy
    bit set. -/
def busBusy : Bus :=
  { write := fun _ _ => IIC_Result.OK
    read := fun _ _ => (IIC_Result.OK, [0x98]) }

/-- Witness for C5: the theorem applied at the busy bus and handle0. -/
theorem C5_read_busy_unchanged_witness :
    (aht21_read_data busBusy handle0).1 = AHT21_Result.ERR_BUSY ∧
    (aht21_read_data busBusy handle0).2.1.temperature =
      handle0.temperature ∧
    (aht21_read_data busBusy handle0).2.1.humidity = handle0.humidity ∧
    (aht21_read_data busBusy handle0).2.1.raw_data = handle0.raw_data ∧
    (aht21_read_data busBusy handle0).2.1.state = handle0.state :=
  C5_read_busy_unchanged busBusy handle0 0x98 (by decide) (by decide)

/-! ## Claim C6 -/

/-- Claim C6: a driver in WAIT_MEASURE refuses aht21_trigger_measure with
    ERR_BUSY, performing no bus transaction and leaving the handle (hence
    the state) unchanged; consequently after one successful trigger, a
    second trigger on any bus returns ERR_BUSY. -/
theorem C6_trigger_busy (bus bus2 : Bus) (h : AHT21_Handle) :
    (h.state = AHT21_State.WAIT_MEASURE →
      aht21_trigger_measure bus h = (AHT21_Result.ERR_BUSY, h, [])) ∧
    (h.state ≠ AHT21_State.WAIT_MEASURE →
      bus.write AHT21_ADDR [AHT21_CMD_TRIGGER, 0x33, 0x00] = IIC_Result.OK →
      (aht21_trigger_measure bus h).1 = AHT21_Result.OK ∧
      (aht21_trigger_measure bus h).2.1.state = AHT21_State.WAIT_MEASURE ∧
      aht21_trigger_measure bus2 (aht21_trigger_measure bus h).2.1 =
        (AHT21_Result.ERR_BUSY, (aht21_trigger_measure bus h).2.1, [])) := by
  constructor
  · intro hw
    simp [aht21_trigger_measure, hw]
  · intro hnw hok
    simp [aht21_trigger_measure, hnw, hok]

/-- Witness for C6: trigger from handle0 (IDLE) on the all-ACK bus
    succeeds, and the immediate second trigger is refused with ERR_BUSY. -/
theorem C6_trigger_busy_witness :
    (aht21_trigger_measure busC1 handle0).1 = AHT21_Result.OK ∧
    (aht21_trigger_measure busC1 handle0).2.1.state =
      AHT21_State.WAIT_MEASURE ∧
    aht21_trigger_measure busC1 (aht21_trigger_measure busC1 handle0).2.1 =
      (AHT21_Result.ERR_BUSY, (aht21_trigger_measure busC1 handle0).2.1,
        []) :=
  (C6_trigger_busy busC1 busC1 handle0).2 (by decide) (by decide)

/-! ## Claim C2 -/

/-- Claim C2: the adapter's translation of the driver vocabulary into the
    generic sensor vocabulary is total — every AHT21_Result is mapped by
    the trigger and read translations into the generic result kinds
    OK/ERR_BUSY/ERR_COMM, and every AHT21_State is mapped by
    aht21_adapter_get_state into a generic SensorState — and one-to-one on
    the recognized kinds: distinct recognized driver results map to
    distinct generic results and distinct recognized driver states map to
    distinct generic states. -/
theorem C2_adapter_total_lossless :
    ((allAHT21Results.map aht21_adapter_trigger_map).all fun r =>
      decide (r ∈ [SensorResult.OK, SensorResult.ERR_BUSY,
        SensorResult.ERR_COMM])) = true ∧
    ((allAHT21Results.map aht21_adapter_read_map).all fun r =>
      decide (r ∈ [SensorResult.OK, SensorResult.ERR_BUSY,
        SensorResult.ERR_COMM])) = true ∧
    ((allAHT21States.map aht21_adapter_get_state).all fun st =>
      decide (st ∈ [SensorState.IDLE, SensorState.MEASURING,
        SensorState.READY, SensorState.ERROR])) = true ∧
    ((allAHT21Results.map aht21_adapter_reset_map).all fun r =>
      decide (r ∈ [SensorResult.OK, SensorResult.ERR_COMM])) = true ∧
    ((allAHT21Results.map aht21_adapter_get_map).all fun r =>
      decide (r ∈ [SensorResult.OK, SensorResult.ERR_NOT_READY])) = true ∧
    (recognizedResults.map aht21_adapter_trigger_map).Nodup ∧
    (recognizedResults.map aht21_adapter_read_map).Nodup ∧
    ([AHT21_Result.OK, AHT21_Result.ERR_IIC].map
      aht21_adapter_reset_map).Nodup ∧
    ([AHT21_Result.OK, AHT21_Result.ERR_NOT_INIT].map
      aht21_adapter_get_map).Nodup ∧
    (recognizedStates.map aht21_adapter_get_state).Nodup := by
  decide

/-! ## Claim C10 -/

/-- Claim C10: sensor_init (for non-null handle, ops table and driver
    handle, the null cases being rejected before any effect) zeroes the
    instance, stores the tag and ops table, sets the cached state to IDLE,
    and invokes the init slot when present while discarding its result:
    the constructed instance does not depend on what the backend init
    reports, and no error is surfaced (the function returns nothing). -/
theorem C10_init_discards_result (t : SensorType) (ops : SensorOps) :
    (sensor_init t ops).1.state = SensorState.IDLE ∧
    (sensor_init t ops).1.temperature = 0 ∧
    (sensor_init t ops).1.humidity = 0 ∧
    (sensor_init t ops).1.type = t ∧
    (∀ r, ops.init = some r → (sensor_init t ops).2 = [r]) ∧
    (ops.init = none → (sensor_init t ops).2 = []) ∧
    (∀ r r',
      (sensor_init t { ops with init := some r }).1.state =
        (sensor_init t { ops with init := some r' }).1.state ∧
      (sensor_init t { ops with init := some r }).1.temperature =
        (sensor_init t { ops with init := some r' }).1.temperature ∧
      (sensor_init t { ops with init := some r }).1.humidity =
        (sensor_init t { ops with init := some r' }).1.humidity) := by
  cases hinit : ops.init <;>
    simp [sensor_init, hinit]

/-- Witness for C10: initializing with a backend init that reports
    ERR_COMM still yields an IDLE instance, the failure being dropped. -/
theorem C10_init_discards_result_witness :
    (sensor_init SensorType.AHT21 opsW).1.state = SensorState.IDLE ∧
    (sensor_init SensorType.AHT21 opsW).2 = [SensorResult.ERR_COMM] :=
  ⟨(C10_init_discards_result SensorType.AHT21 opsW).1,
   (C10_init_discards_result SensorType.AHT21 opsW).2.2.2.2.1
     SensorResult.ERR_COMM rfl⟩

/-! ## Claim C7 -/

/-- Removing an absent element is a no-op for the sensor_stop loop. -/
theorem sensor_stop_list_not_mem {α : Type} [DecidableEq α] (h : α) :
    ∀ (l : List α), h ∉ l → sensor_stop_list h l = l := by
  intro l
  induction l with
  | nil => intro _; rfl
  | cons e rest ih =>
    intro hm
    have he : e ≠ h := fun contra => hm (by simp [contra])
    have hr : h ∉ rest := fun contra => hm (List.mem_cons_of_mem _ contra)
    simp [sensor_stop_list, he, ih hr]

/-- The sensor_stop loop removes elements only, never adding. -/
theorem sensor_stop_list_sublist {α : Type} [DecidableEq α] (h : α) :
    ∀ (l : List α), (sensor_stop_list h l).Sublist l := by
  intro l
  induction l with
  | nil => simp [sensor_stop_list]
  | cons e rest ih =>
    by_cases he : e = h
    · simp only [sensor_stop_list, he, if_true]
      exact List.sublist_cons_self _ _
    · simp only [sensor_stop_list, he, if_false]
      exact ih.cons₂ e

/-- Claim C7: the registry never holds the same instance twice and every
    registry operation preserves that: sensor_start rejects null with -2,
    rejects an already-registered instance with the distinct code -1
    leaving the registry unchanged, and inserts a fresh instance at the
    front returning 0; sensor_stop on null or an unregistered instance is
    a no-op; and both operations preserve the no-duplicates invariant. -/
theorem C7_registry_nodup (reg : List Nat) (h : Nat) (hnd : reg.Nodup) :
    sensor_start reg (none : Option Nat) = (-2, reg) ∧
    (h ∈ reg → sensor_start reg (some h) = (-1, reg)) ∧
    (h ∉ reg → sensor_start reg (some h) = (0, h :: reg)) ∧
    (sensor_start reg (some h)).2.Nodup ∧
    sensor_stop reg (none : Option Nat) = reg ∧
    (h ∉ reg → sensor_stop reg (some h) = reg) ∧
    (sensor_stop reg (some h)).Nodup := by
  refine ⟨rfl, ?_, ?_, ?_, rfl, ?_, ?_⟩
  · intro hm
    simp [sensor_start, hm]
  · intro hm
    simp [sensor_start, hm]
  · by_cases hm : h ∈ reg
    · simpa [sensor_start, hm] using hnd
    · simpa [sensor_start, hm] using List.nodup_cons.mpr ⟨hm, hnd⟩
  · intro hm
    simpa [sensor_stop] using sensor_stop_list_not_mem h reg hm
  · simpa [sensor_stop] using
      (sensor_stop_list_sublist h reg).nodup hnd

/-- Witness for C7: registering 3 into the duplicate-free registry [1, 2]
    inserts at the front; removing the absent 3 is a no-op; re-registering
    the present 1 is refused with -1. -/
theorem C7_registry_nodup_witness :
    sensor_start [1, 2] (some 3) = (0, [3, 1, 2]) ∧
    sensor_stop [1, 2] (some 3) = [1, 2] ∧
    sensor_start [1, 2] (some 1) = (-1, [1, 2]) :=
  ⟨(C7_registry_nodup [1, 2] 3 (by decide)).2.2.1 (by decide),
   (C7_registry_nodup [1, 2] 3 (by decide)).2.2.2.2.2.1 (by decide),
   (C7_registry_nodup [1, 2] 1 (by decide)).2.1 (by decide)⟩

/-! ## Claim C8 -/

/-- One scheduler pass visits exactly the registered instances, in
    registry order. -/
theorem sensor_ticks_map_fst {α : Type} (getState : α → SensorState) :
    ∀ (reg : List α), (sensor_ticks getState reg).map Prod.fst = reg := by
  intro reg
  induction reg with
  | nil => rfl
  | cons e rest ih => simp [sensor_ticks, ih]

/-- Claim C8: one call to sensor_ticks invokes the state handler exactly
    once per registered instance, in most-recently-registered-first order
    (the registry front first, and a freshly registered instance is
    handled first on the next pass), and for each instance drives exactly
    the one action its current state selects: trigger when IDLE, read when
    MEASURING, nothing when READY, reset when ERROR. -/
theorem C8_ticks_one_handler_each (getState : Nat → SensorState)
    (reg : List Nat) (h : Nat) :
    (sensor_ticks getState reg).map Prod.fst = reg ∧
    (sensor_ticks getState reg).length = reg.length ∧
    (∀ p, p ∈ sensor_ticks getState reg →
      p.2 = sensor_handler_action (getState p.1)) ∧
    (sensor_handler_action SensorState.IDLE = SensorAction.trigger ∧
     sensor_handler_action SensorState.MEASURING = SensorAction.read ∧
     sensor_handler_action SensorState.READY = SensorAction.noAction ∧
     sensor_handler_action SensorState.ERROR = SensorAction.reset) ∧
    (h ∉ reg →
      sensor_ticks getState (sensor_start reg (some h)).2 =
        (h, sensor_handler_action (getState h)) ::
          sensor_ticks getState reg) := by
  refine ⟨sensor_ticks_map_fst getState reg, ?_, ?_, ⟨rfl, rfl, rfl, rfl⟩,
    ?_⟩
  · have := congrArg List.length (sensor_ticks_map_fst getState reg)
    simpa using this
  · intro p hp
    induction reg with
    | nil => simp [sensor_ticks] at hp
    | cons e rest ih =>
      rcases (List.mem_cons).mp hp with he | hr
      · rw [he]
      · exact ih hr
  · intro hm
    simp [sensor_start, hm, sensor_ticks]

/-- Witness for C8: a two-instance registry is visited front first with
    the per-state actions, and registering 3 puts it at the head of the
    next pass. -/
theorem C8_ticks_one_handler_each_witness :
    (sensor_ticks getStateW [1, 2]).map Prod.fst = [1, 2] ∧
    sensor_ticks getStateW (sensor_start [1, 2] (some 3)).2 =
      (3, sensor_handler_action (getStateW 3)) ::
        sensor_ticks getStateW [1, 2] :=
  ⟨(C8_ticks_one_handler_each getStateW [1, 2] 3).1,
   (C8_ticks_one_handler_each getStateW [1, 2] 3).2.2.2.2 (by decide)⟩

/-! ## Claim C3 -/

/-- Counterexample to claim C3 as stated: first, ERROR is not left only
    through soft_reset — a direct aht21_read_data call on a fully
    successful bus takes a driver from ERROR straight to READY having
    performed only read transactions; second, trigger_measure never
    transitions the driver to ERROR for any bus outcome (checked here over
    every IIC_Result for a concrete idle handle), its failure path leaving
    the state unchanged. -/
theorem C3_error_counterexample :
    handleErr.state = AHT21_State.ERROR ∧
    (aht21_read_data busC1 handleErr).1 = AHT21_Result.OK ∧
    (aht21_read_data busC1 handleErr).2.1.state = AHT21_State.READY ∧
    (aht21_read_data busC1 handleErr).2.2 =
      [BusOp.read AHT21_ADDR 1, BusOp.read AHT21_ADDR 7] ∧
    ((allIICResults.map fun r =>
        (aht21_trigger_measure (busConst r) handle0).2.1.state).all
      fun st => decide (st ≠ AHT21_State.ERROR)) = true := by
  refine ⟨rfl, ?_, ?_, ?_, by decide⟩ <;>
    decide

/-- A trigger_measure step never newly enters ERROR: if the post state is
    ERROR the pre state already was. -/
theorem trigger_state_to_error (bus : Bus) (h : AHT21_Handle) :
    (aht21_trigger_measure bus h).2.1.state = AHT21_State.ERROR →
      h.state = AHT21_State.ERROR := by
  intro herr
  by_cases hw : h.state = AHT21_State.WAIT_MEASURE
  · simpa [aht21_trigger_measure, hw] using herr
  · by_cases hok : bus.write AHT21_ADDR [AHT21_CMD_TRIGGER, 0x33, 0x00] =
      IIC_Result.OK
    · simp [aht21_trigger_measure, hw, hok] at herr
    · simpa [aht21_trigger_measure, hw, hok] using herr

/-- A read_data step never newly enters ERROR: if the post state is ERROR
    the pre state already was. -/
theorem read_data_state_to_error (bus : Bus) (h : AHT21_Handle) :
    (aht21_read_data bus h).2.1.state = AHT21_State.ERROR →
      h.state = AHT21_State.ERROR := by
  intro herr
  simp only [aht21_read_data, aht21_check_status] at herr
  repeat' split at herr
  all_goals first
    | exact herr
    | simp at herr

/-- Claim C3 amended: no step (trigger_measure, read_data or ticks) ever
    transitions the driver into ERROR — their bus-failure paths leave the
    state unchanged, ERROR being entered only by aht21_init — and within
    aht21_ticks the ERROR state performs exactly one soft-reset write,
    recovering to IDLE precisely when that write succeeds and staying in
    ERROR otherwise (though a direct read_data or trigger_measure call can
    also leave ERROR on a successful bus). -/
theorem C3_error_only_reset_in_ticks (bus : Bus) (h : AHT21_Handle) :
    ((aht21_trigger_measure bus h).2.1.state = AHT21_State.ERROR →
      h.state = AHT21_State.ERROR) ∧
    ((aht21_read_data bus h).2.1.state = AHT21_State.ERROR →
      h.state = AHT21_State.ERROR) ∧
    ((aht21_ticks bus h).1.state = AHT21_State.ERROR →
      h.state = AHT21_State.ERROR) ∧
    (h.state = AHT21_State.ERROR →
      (aht21_ticks bus h).2 =
        [BusOp.write AHT21_ADDR [AHT21_CMD_SOFT_RESET]] ∧
      (bus.write AHT21_ADDR [AHT21_CMD_SOFT_RESET] = IIC_Result.OK →
        (aht21_ticks bus h).1.state = AHT21_State.IDLE) ∧
      (bus.write AHT21_ADDR [AHT21_CMD_SOFT_RESET] ≠ IIC_Result.OK →
        (aht21_ticks bus h).1.state = AHT21_State.ERROR)) := by
  refine ⟨trigger_state_to_error bus h, read_data_state_to_error bus h,
    ?_, ?_⟩
  · intro herr
    cases hs : h.state with
    | ERROR => rfl
    | IDLE =>
      by_cases hw : bus.write AHT21_ADDR [AHT21_CMD_TRIGGER, 0x33, 0x00] =
          IIC_Result.OK <;>
        simp [aht21_ticks, aht21_trigger_measure, hs, hw] at herr
    | INIT => simp [aht21_ticks, hs] at herr
    | WAIT_MEASURE =>
      simp only [aht21_ticks, hs] at herr
      split at herr
      · split at herr
        · simp at herr
        · have hpre := read_data_state_to_error bus _ herr
          simp [hs] at hpre
      · simp [hs] at herr
    | READY =>
      simp only [aht21_ticks, hs] at herr
      split at herr <;> simp [hs] at herr
  · intro hs
    by_cases hok : bus.write AHT21_ADDR [AHT21_CMD_SOFT_RESET] =
      IIC_Result.OK
    · refine ⟨?_, ?_, ?_⟩ <;>
        simp [aht21_ticks, hs, aht21_soft_reset, hok]
    · refine ⟨?_, ?_, ?_⟩ <;>
        simp [aht21_ticks, hs, aht21_soft_reset, hok]

/-- Witness for the amended C3: a driver in ERROR whose soft-reset write
    succeeds is back to IDLE after one tick. -/
theorem C3_error_only_reset_in_ticks_witness :
    (aht21_ticks (busConst IIC_Result.OK) handleErr).1.state =
      AHT21_State.IDLE :=
  ((C3_error_only_reset_in_ticks (busConst IIC_Result.OK)
    handleErr).2.2.2 (by decide)).2.1 (by decide)
